import Mathlib

/-!
Verification of `src/contrib/django/freppledb/execute/create.py`, a fixture
generator that populates a planning database with a synthetic supply-chain
dataset shaped by the parameters (cluster, demand, level, resource,
utilization).

Shallow embedding conventions:

* Dates are modelled as day-offsets from the fixed epoch
  `startdate = datetime(2007,1,1)`; offset `i : ℕ` means the calendar day
  `startdate + i`.
* Python's global pseudo-random generator is modelled as a stream
  `σ : ℕ → ℕ` of draw numerators: the n-th call of `random.random()`
  returns the real number `σ n / D` where `D = 2^53` is the resolution of
  the generator (CPython's `random()` returns `k / 2^53` with `k < 2^53`).
  A stream is valid when every numerator is `< D`.
* `random.seed(100)` discards the caller's generator state and installs a
  fixed, reproducible stream.  The Mersenne-Twister stream that CPython
  produces after `seed(100)` is external library behaviour; it is modelled
  here by a fixed concrete stream `seedStream` (derived from a linear
  congruential generator).  No theorem below depends on the individual
  values of `seedStream`, only on its validity.
* All quantities that the script computes with `int(...)` on nonnegative
  values are expressed by exact integer arithmetic on the draw numerators;
  bridging lemmas (`uniformInt_eq_pyInt`, `choiceIdx_eq_pyInt`,
  `chance_iff`) prove these integer forms equal to the real-number
  formulas of the source.
* Database persistence (`save`, `transaction.commit`, stdout prints) is
  side-effect bookkeeping; the embedding records the created rows in
  lists, in creation order.
-/

namespace Frepple

/-- Resolution of the pseudo-random generator: `random.random()` returns
`k / 2^53` for some `k < 2^53`. -/
def D : ℕ := 9007199254740992

/-- A stream of raw draw numerators; the n-th `random.random()` call of a
run returns `σ n / D`. -/
abbrev RStream := ℕ → ℕ

/-- A draw stream is valid when every numerator is below the resolution,
i.e. every `random.random()` value lies in `[0, 1)`. -/
def validS (σ : RStream) : Prop := ∀ n, σ n < D

/-- Python `int(...)` applied to a rational: truncation toward zero. -/
def pyInt (q : ℚ) : ℤ := if q < 0 then -⌊-q⌋ else ⌊q⌋

/-- `int(random.uniform(a, b))` for integer bounds `0 ≤ a ≤ b` and draw
numerator `k`: `uniform(a, b) = a + (b-a)*random()`, and truncating the
nonnegative rational `a + (b-a)*k/D` yields `a + (b-a)*k / D` in `ℕ`. -/
def uniformInt (a b k : ℕ) : ℕ := a + (b - a) * k / D

/-- `random.choice(seq)` on a sequence of length `len` picks the element
at index `int(random() * len)`, i.e. `len * k / D`. -/
def choiceIdx (len k : ℕ) : ℕ := len * k / D

/-- `getDate()` returns `startdate + timedelta(random.uniform(0, 365))`;
for draw numerator `k` the day-offset from the epoch is `365 * k / D`. -/
def getDateOffset (k : ℕ) : ℚ := 365 * (k : ℚ) / D

/-- The check `random.uniform(0, 1) > 0.8` guarding random on-hand
inventory: `k/D > 4/5` iff `5*k > 4*D`. -/
def chance (k : ℕ) : Bool := decide (4 * D < 5 * k)

/-- The fixed category list `['cat A', ..., 'cat G']` has 7 entries;
categories are recorded by index. -/
def numCategories : ℕ := 7

/-- `create_model` creates 100 customers `Cust 000 .. Cust 099`;
customers are recorded by index. -/
def numCustomers : ℕ := 100

/-- The fixed duration choices
`[0, 0, 0, 86400, 86400*2, 86400*3, 86400*5, 86400*6]` (seconds). -/
def durations : List ℕ := [0, 0, 0, 86400, 86400 * 2, 86400 * 3, 86400 * 5, 86400 * 6]

/-- Cumulative day counts at each month boundary of the non-leap year
2007: day-offsets `31, 59, ...` start February, March, ... -/
def monthCum : List ℕ := [31, 59, 90, 120, 151, 181, 212, 243, 273, 304, 334]

/-- Month (1..12) of the calendar day at offset `d` (0..364) from
2007-01-01, i.e. the value `int(curdate.strftime("%m"))`. -/
def monthOf (d : ℕ) : ℕ := 1 + monthCum.countP (fun c => decide (c ≤ d))

/-- One row of the `Dates` table: `day` is the day-offset from the epoch,
`month` the month number 1..12, and `quarter` the quarter number computed
by the source as `(month-1) / 3 + 1` (Python 2 integer division). -/
structure DateRow where
  day : ℕ
  month : ℕ
  quarter : ℕ
  deriving DecidableEq

/-- `createDates()`: loops `i in range(365)` over one year of daily
buckets starting at the epoch and saves one `Dates` row per day. -/
def createDates : List DateRow :=
  (List.range 365).map fun i =>
    { day := i, month := monthOf i, quarter := (monthOf i - 1) / 3 + 1 }

/-- One row of the `Plan` table; `current` is the plan's current date as
a day-offset from the epoch (the source sets it to `startdate`, offset 0). -/
structure PlanRow where
  current : ℤ
  deriving DecidableEq

/-- The plan step of `create_model`: take the first existing `Plan` row
and set its current date to `startdate`; if none exists (the subscript
raises), create one with current date `startdate`. -/
def planStep (plans : List PlanRow) : List PlanRow :=
  match plans with
  | [] => [{ current := 0 }]
  | _ :: rest => { current := 0 } :: rest

/-- Average per-resource capacity, from the source:
`capacity = int(float(cluster*demand*550) / (resource*365*utilization)) + 1`. -/
def capacity (cluster demand resource : ℕ) (utilization : ℚ) : ℤ :=
  pyInt ((cluster * demand * 550 : ℚ) / ((resource : ℚ) * 365 * utilization)) + 1

/-- Names of the `Operation` rows: `'Del %05d' % i`, `'Oper %05d L%02d' % (i,k)`
and `'Sup %05d' % i`. -/
inductive OpName where
  | del (i : ℕ)
  | oper (i k : ℕ)
  | sup (i : ℕ)
  deriving DecidableEq

/-- Whether an operation row carries `type='OPERATION_TIME_PER'` or is a
plain operation with an (optional) fixed duration. -/
inductive OpType where
  | plain
  | timePer
  deriving DecidableEq

/-- One row of the `Operation` table (the fields the script sets). -/
structure OperationRow where
  name : OpName
  optype : OpType
  duration : Option ℕ
  durationPer : Option ℕ
  sizemultiple : ℕ
  deriving DecidableEq

/-- One row of the `Load` table: `Load(resource=random.choice(res), operation=oper)`;
the resource is recorded by its index in the created resource list. -/
structure LoadRow where
  op : OpName
  res : ℕ
  deriving DecidableEq

/-- One row of the `Demand` table for `'Dmd %05d %05d' % (i, j)`.
`dueK` is the raw draw numerator of the `getDate()` call; the due date is
the epoch plus `getDateOffset dueK` days.  `customer` and `category` are
indices into the created customer list and the fixed category list. -/
structure DemandRow where
  cluster : ℕ
  idx : ℕ
  quantity : ℕ
  dueK : ℕ
  priority : ℕ
  customer : ℕ
  category : ℕ
  deriving DecidableEq

/-- One row of the `Buffer` table created at the top of a chain stage
(`'Buf %05d L%02d' % (i, k+1)`); `onhand` is set only when the 20%
inventory chance fires. -/
structure BufferRow where
  cluster : ℕ
  stage : ℕ
  onhand : Option ℕ
  deriving DecidableEq

/-- One row of the `OperationPlan` table: supply order `identifier=cnt`
on the cluster's supply operation; `arrivalK` is the raw draw numerator
of the `getDate()` call (start and end date are both that date). -/
structure OperationPlanRow where
  identifier : ℕ
  op : OpName
  quantity : ℕ
  arrivalK : ℕ
  deriving DecidableEq

/-- The rows created by one iteration of the upstream-stage loop
(`for k in range(level)`): one `Operation`, an optional `Load` (only on
level 1 when resources exist) and the next `Buffer` up the chain. -/
structure StageOut where
  op : OperationRow
  load : Option LoadRow
  buf : BufferRow
  deriving DecidableEq

/-- One demand row `'Dmd %05d %05d' % (i, j)`.  The constructor argument
draws happen left to right: quantity `int(random.uniform(1, 11))`, due
`getDate()`, priority `int(random.uniform(1, 4))`, customer
`random.choice(cust)`, category `random.choice(categories)` — five draws
starting at stream position `s`. -/
def mkDemand (σ : RStream) (s i j : ℕ) : DemandRow :=
  { cluster := i, idx := j,
    quantity := uniformInt 1 11 (σ s),
    dueK := σ (s + 1),
    priority := uniformInt 1 4 (σ (s + 2)),
    customer := choiceIdx numCustomers (σ (s + 3)),
    category := choiceIdx numCategories (σ (s + 4)) }

/-- The demand loop `for j in range(demand)`, creating demands `j, j+1, ...`
from stream position `s`; returns the rows and the next stream position. -/
def mkDemands (σ : RStream) (i : ℕ) : ℕ → ℕ → ℕ → List DemandRow × ℕ
  | s, _, 0 => ([], s)
  | s, j, n + 1 =>
    let d := mkDemand σ s i j
    let rest := mkDemands σ i (s + 5) (j + 1) n
    (d :: rest.1, rest.2)

/-- One iteration of the upstream-stage loop for stage `k` of cluster `i`
with `R` created resources.  `if k == 1 and res:` creates an
`OPERATION_TIME_PER` operation with `duration_per=86400` plus a `Load` on
a random resource (one draw); otherwise a plain operation with
`duration=random.choice(durations)` (one draw).  Then
`if random.uniform(0,1) > 0.8:` (one draw) sets
`onhand=int(random.uniform(5,20))` on the new buffer (one more draw). -/
def mkStage (σ : RStream) (R : ℕ) (s i k : ℕ) : StageOut × ℕ :=
  let opld : OperationRow × Option LoadRow :=
    if k = 1 ∧ R ≠ 0 then
      ({ name := .oper i k, optype := .timePer, duration := none,
         durationPer := some 86400, sizemultiple := 1 },
       some { op := OpName.oper i k, res := choiceIdx R (σ s) })
    else
      ({ name := .oper i k, optype := .plain,
         duration := some (durations.getD (choiceIdx 8 (σ s)) 0),
         durationPer := none, sizemultiple := 1 }, none)
  if chance (σ (s + 1)) then
    ({ op := opld.1, load := opld.2,
       buf := { cluster := i, stage := k + 1,
                onhand := some (uniformInt 5 20 (σ (s + 2))) } }, s + 3)
  else
    ({ op := opld.1, load := opld.2,
       buf := { cluster := i, stage := k + 1, onhand := none } }, s + 2)

/-- The upstream loop `for k in range(level)` from stage `k` on, `n`
stages remaining; returns the stage rows and the next stream position. -/
def mkStages (σ : RStream) (R i : ℕ) : ℕ → ℕ → ℕ → List StageOut × ℕ
  | s, _, 0 => ([], s)
  | s, k, n + 1 =>
    let st := mkStage σ R s i k
    let rest := mkStages σ R i st.2 (k + 1) n
    (st.1 :: rest.1, rest.2)

/-- The supply loop `while total_demand > 0`: each iteration increments
the operationplan counter, draws an arrival date (`getDate()`, one draw)
and a quantity `int(random.uniform(1, 100))` (one draw), and subtracts
the quantity from the remaining demand.  The loop is embedded with a
fuel argument; `create_model` supplies fuel `total_demand.toNat`, which
the termination theorem shows is never exhausted on a valid stream.
Returns (rows, final remaining demand, next stream position, counter). -/
def supplyLoop (σ : RStream) (i : ℕ) : ℕ → ℤ → ℕ → ℕ → List OperationPlanRow × ℤ × ℕ × ℕ
  | 0, td, s, cnt => ([], td, s, cnt)
  | fuel + 1, td, s, cnt =>
    if 0 < td then
      let q := uniformInt 1 100 (σ (s + 1))
      let p : OperationPlanRow :=
        { identifier := cnt + 1, op := .sup i, quantity := q, arrivalK := σ s }
      let rest := supplyLoop σ i fuel (td - (q : ℤ)) (s + 2) (cnt + 1)
      (p :: rest.1, rest.2)
    else ([], td, s, cnt)

/-- Total quantity of a list of demand rows (`total_demand` accumulator). -/
def demandTotal (l : List DemandRow) : ℤ := (l.map fun d => (d.quantity : ℤ)).sum

/-- Total quantity of a list of supply operationplan rows. -/
def supplyTotal (l : List OperationPlanRow) : ℤ := (l.map fun p => (p.quantity : ℤ)).sum

/-- Everything created for one cluster `i`: the item's random category
(one draw, `random.choice(categories)`), the demand rows, the upstream
stage rows and the supply operationplans.  `finalTd` is the value of
`total_demand` when the supply loop exits. -/
structure ClusterOut where
  idx : ℕ
  itemCategory : ℕ
  demands : List DemandRow
  stages : List StageOut
  opplans : List OperationPlanRow
  finalTd : ℤ
  deriving DecidableEq

/-- One iteration of the cluster loop `for i in range(cluster)`:
location, delivery operation and item (category draw), level-0 buffer and
flow (no draws), the demand loop, the upstream-stage loop, the supply
operation (no draws) and the supply loop.  Returns the cluster's rows,
the next stream position and the operationplan counter. -/
def mkCluster (σ : RStream) (demand lvl R : ℕ) (s cnt i : ℕ) : ClusterOut × ℕ × ℕ :=
  let cat := choiceIdx numCategories (σ s)
  let dres := mkDemands σ i (s + 1) 0 demand
  let td := demandTotal dres.1
  let sres := mkStages σ R i dres.2 0 lvl
  let ores := supplyLoop σ i td.toNat td sres.2 cnt
  ({ idx := i, itemCategory := cat, demands := dres.1, stages := sres.1,
     opplans := ores.1, finalTd := ores.2.1 }, ores.2.2.1, ores.2.2.2)

/-- The cluster loop: clusters `i, i+1, ...`, `n` remaining, threading
the stream position and the operationplan counter. -/
def runClusters (σ : RStream) (demand lvl R : ℕ) : ℕ → ℕ → ℕ → ℕ → List ClusterOut × ℕ × ℕ
  | s, cnt, _, 0 => ([], s, cnt)
  | s, cnt, i, n + 1 =>
    let c := mkCluster σ demand lvl R s cnt i
    let rest := runClusters σ demand lvl R c.2.1 c.2.2 (i + 1) n
    (c.1 :: rest.1, rest.2)

/-- The generated dataset of one `create_model` run. -/
structure RunOutput where
  dates : List DateRow
  plans : List PlanRow
  customers : ℕ
  buckets : List ℤ
  clusters : List ClusterOut
  deriving DecidableEq

/-- The fixed-modulus linear congruential generator used to model the
stream installed by `random.seed(100)` (state 0 is the seed 100). -/
def lcgState : ℕ → ℕ
  | 0 => 100
  | n + 1 => (1664525 * lcgState n + 1013904223) % 4294967296

/-- The draw-numerator stream installed by `random.seed(100)`: a fixed,
reproducible stream of values `< D` (each 32-bit LCG value scaled by
`2^21` so that numerators range over `[0, 2^53)`). -/
def seedStream : RStream := fun n => lcgState (n + 1) * 2097152

/-- `create_model(cluster, demand, level, resource, utilization)`.
`rng0` is the state of the global random generator before the call; the
first statement `random.seed(100)` discards it and installs `seedStream`.
`plans0` is the pre-existing content of the `Plan` table.  The run
creates the date rows, the plan row, 100 customers, one capacity
calendar/bucket/resource triple per resource (bucket value `capacity`),
then loops over the clusters with the operationplan counter starting at
`cnt = 100000`. -/
def create_model (rng0 : RStream × ℕ) (plans0 : List PlanRow)
    (cluster demand lvl resource : ℕ) (utilization : ℚ) : RunOutput :=
  let _ := rng0
  let σ := seedStream
  let cap := capacity cluster demand resource utilization
  { dates := createDates,
    plans := planStep plans0,
    customers := numCustomers,
    buckets := List.replicate resource cap,
    clusters := (runClusters σ demand lvl resource 0 100000 0 cluster).1 }

/-- All operation rows created for one cluster, in creation order: the
delivery operation `'Del %05d' % i`, the stage operations, and the supply
operation `'Sup %05d' % i` (delivery and supply are created with
`sizemultiple=1` only). -/
def ClusterOut.operations (c : ClusterOut) : List OperationRow :=
  { name := OpName.del c.idx, optype := .plain, duration := none,
    durationPer := none, sizemultiple := 1 }
    :: (c.stages.map fun st => st.op)
    ++ [{ name := OpName.sup c.idx, optype := .plain, duration := none,
          durationPer := none, sizemultiple := 1 }]

/-- All operationplan rows of a run, in creation order. -/
def runOpplans (out : RunOutput) : List OperationPlanRow :=
  (out.clusters.map fun c => c.opplans).flatten

/-- All operation rows of a run, in creation order. -/
def runOperations (out : RunOutput) : List OperationRow :=
  (out.clusters.map fun c => c.operations).flatten

/-- The property of one chain stage that the code actually guarantees:
writing the operation name as `Oper i Lk`, stage `k = 1` (when at least
one resource exists) is an `OPERATION_TIME_PER` operation with
`duration_per = 86400` loading one of the `R` created resources, and
every other stage is a plain operation with a duration picked from the
fixed `durations` list and no load. -/
def stageOk (R : ℕ) (st : StageOut) : Prop :=
  ∀ i k, st.op.name = OpName.oper i k →
    ((k = 1 ∧ R ≠ 0) →
      st.op.optype = OpType.timePer ∧ st.op.durationPer = some 86400 ∧
      st.op.duration = none ∧
      ∃ ld, st.load = some ld ∧ ld.op = OpName.oper i k ∧ ld.res < R) ∧
    (¬(k = 1 ∧ R ≠ 0) →
      st.load = none ∧ st.op.optype = OpType.plain ∧ st.op.durationPer = none ∧
      ∃ dur, st.op.duration = some dur ∧ dur ∈ durations)

/-- Whether a run created a stage operation named `Oper i Lk`. -/
def stageAt (out : RunOutput) (i k : ℕ) : Bool :=
  out.clusters.any fun cl => cl.stages.any fun st =>
    decide (st.op.name = OpName.oper i k)

/-- Whether a run created a stage operation named `Oper i Lk` carrying a
resource load. -/
def stageLoadAt (out : RunOutput) (i k : ℕ) : Bool :=
  out.clusters.any fun cl => cl.stages.any fun st =>
    decide (st.op.name = OpName.oper i k) && st.load.isSome

/-- The default cluster value used with `List.getD` in concrete
instantiations. -/
def defaultCluster : ClusterOut :=
  { idx := 0, itemCategory := 0, demands := [], stages := [], opplans := [], finalTd := 0 }

/-- Default stage used with `List.getD` in concrete instantiations. -/
def defaultStage : StageOut :=
  { op := { name := OpName.del 0, optype := .plain, duration := none,
            durationPer := none, sizemultiple := 1 },
    load := none, buf := { cluster := 0, stage := 0, onhand := none } }

/-- Default demand row used with `List.getD` in concrete instantiations. -/
def defaultDemand : DemandRow :=
  { cluster := 0, idx := 0, quantity := 0, dueK := 0, priority := 0,
    customer := 0, category := 0 }

/-- Concrete cluster of the run with parameters (1, 1, 0, 1, 1), used to
instantiate C1. -/
def cl1 : ClusterOut :=
  (create_model (fun _ => 0, 0) [] 1 1 0 1 1).clusters.getD 0 defaultCluster

/-- Concrete bucket of the run with parameters (2, 3, 1, 1, 1), used to
instantiate C3. -/
def bucket3 : ℤ := (create_model (fun _ => 0, 0) [] 2 3 1 1 1).buckets.getD 0 0

/-- Concrete cluster of the run with parameters (1, 0, 2, 1, 1), used to
instantiate C5. -/
def cl5 : ClusterOut :=
  (create_model (fun _ => 0, 0) [] 1 0 2 1 1).clusters.getD 0 defaultCluster

/-- The stage with index 1 of `cl5`. -/
def st5 : StageOut := cl5.stages.getD 1 defaultStage

/-- Concrete cluster of the run with parameters (1, 1, 0, 2, 1), used to
instantiate C7. -/
def cl7 : ClusterOut :=
  (create_model (fun _ => 0, 0) [] 1 1 0 2 1).clusters.getD 0 defaultCluster

/-- The first demand row of `cl7`. -/
def dm7 : DemandRow := cl7.demands.getD 0 defaultDemand

/-- Concrete cluster of the run with parameters (1, 2, 0, 1, 1), used to
instantiate C9. -/
def cl9 : ClusterOut :=
  (create_model (fun _ => 0, 0) [] 1 2 0 1 1).clusters.getD 0 defaultCluster

lemma D_pos : 0 < D := by norm_num [D]

lemma uniformInt_lower (a b k : ℕ) : a ≤ uniformInt a b k := Nat.le_add_right a _

lemma uniformInt_upper {a b k : ℕ} (hab : a < b) (hk : k < D) :
    uniformInt a b k ≤ b - 1 := by
  have hba : 0 < b - a := by omega
  have h1 : (b - a) * k < (b - a) * D := mul_lt_mul_of_pos_left hk hba
  have h2 : (b - a) * k / D < b - a := (Nat.div_lt_iff_lt_mul D_pos).2 h1
  unfold uniformInt
  omega

lemma choiceIdx_lt {len k : ℕ} (hlen : 0 < len) (hk : k < D) :
    choiceIdx len k < len := by
  have h1 : len * k < len * D := mul_lt_mul_of_pos_left hk hlen
  exact (Nat.div_lt_iff_lt_mul D_pos).2 h1

lemma lcgState_lt (n : ℕ) : lcgState n < 4294967296 := by
  cases n with
  | zero => norm_num [lcgState]
  | succ n => exact Nat.mod_lt _ (by norm_num)

lemma validS_seedStream : validS seedStream := by
  intro n
  have h := lcgState_lt (n + 1)
  calc seedStream n = lcgState (n + 1) * 2097152 := rfl
    _ < 4294967296 * 2097152 := by
        exact mul_lt_mul_of_pos_right h (by norm_num)
    _ = D := by norm_num [D]

lemma pyInt_of_nonneg {q : ℚ} (h : 0 ≤ q) : pyInt q = ⌊q⌋ := if_neg (not_lt.2 h)

lemma floor_natCast_div (m n : ℕ) : ⌊(m : ℚ) / (n : ℚ)⌋ = (m / n : ℕ) := by
  have h := Rat.floor_intCast_div_natCast (m : ℤ) n
  rw [show (((m : ℤ) : ℚ)) = (m : ℚ) from by push_cast; rfl] at h
  rw [h]
  exact_mod_cast rfl

/-- Faithfulness of the integer form of `int(random.uniform(a, b))`:
for a draw numerator `k`, `uniformInt a b k` equals the Python value
`int(a + (b - a) * (k/D))`. -/
lemma uniformInt_eq_pyInt {a b : ℕ} (k : ℕ) (hab : a ≤ b) :
    (uniformInt a b k : ℤ) = pyInt ((a : ℚ) + ((b : ℚ) - (a : ℚ)) * ((k : ℚ) / (D : ℚ))) := by
  have harg : (a : ℚ) + ((b : ℚ) - (a : ℚ)) * ((k : ℚ) / (D : ℚ))
      = (((b - a) * k : ℕ) : ℚ) / (D : ℚ) + (a : ℕ) := by
    rw [show ((b : ℚ) - (a : ℚ)) = ((b - a : ℕ) : ℚ) from (Nat.cast_sub hab).symm]
    push_cast
    ring
  rw [harg, pyInt_of_nonneg (by positivity), Int.floor_add_nat, floor_natCast_div]
  unfold uniformInt
  push_cast
  ring

/-- Faithfulness of the integer form of `random.choice` on a sequence of
length `len`: for a draw numerator `k`, `choiceIdx len k` equals the
Python index `int(random() * len)`. -/
lemma choiceIdx_eq_pyInt (len k : ℕ) :
    (choiceIdx len k : ℤ) = pyInt ((k : ℚ) / (D : ℚ) * (len : ℚ)) := by
  have harg : (k : ℚ) / (D : ℚ) * (len : ℚ) = ((len * k : ℕ) : ℚ) / (D : ℚ) := by
    push_cast
    ring
  rw [harg, pyInt_of_nonneg (by positivity), floor_natCast_div]
  rfl

/-- Faithfulness of the on-hand inventory test: `chance k` holds exactly
when the drawn value `k/D` exceeds `0.8 = 8/10`. -/
lemma chance_iff (k : ℕ) : chance k = true ↔ (8 : ℚ) / 10 < (k : ℚ) / (D : ℚ) := by
  unfold chance
  rw [decide_eq_true_eq,
    div_lt_div_iff₀ (by norm_num) (by exact_mod_cast D_pos : (0 : ℚ) < (D : ℚ)),
    show ((8 : ℚ) * (D : ℚ) < (k : ℚ) * 10) ↔ (8 * D < k * 10) from by exact_mod_cast Iff.rfl]
  omega

lemma mkDemands_mem {σ : RStream} (hσ : validS σ) (i : ℕ) :
    ∀ n s j, ∀ dm ∈ (mkDemands σ i s j n).1,
      1 ≤ dm.quantity ∧ dm.quantity ≤ 10 ∧ 1 ≤ dm.priority ∧ dm.priority ≤ 3 ∧
      dm.customer < numCustomers ∧ dm.category < numCategories ∧ dm.dueK < D := by
  intro n
  induction n with
  | zero => intro s j dm h; simp [mkDemands] at h
  | succ n ih =>
    intro s j dm h
    simp only [mkDemands, List.mem_cons] at h
    rcases h with h | h
    · subst h
      refine ⟨uniformInt_lower 1 11 _, uniformInt_upper (by norm_num) (hσ s),
        uniformInt_lower 1 4 _, uniformInt_upper (by norm_num) (hσ (s + 2)),
        choiceIdx_lt (by norm_num [numCustomers]) (hσ (s + 3)),
        choiceIdx_lt (by norm_num [numCategories]) (hσ (s + 4)), hσ (s + 1)⟩
    · exact ih (s + 5) (j + 1) dm h

lemma supplyLoop_spec (σ : RStream) (i : ℕ) :
    ∀ fuel td s cnt, td.toNat ≤ fuel →
      supplyTotal (supplyLoop σ i fuel td s cnt).1 = td - (supplyLoop σ i fuel td s cnt).2.1 ∧
      (supplyLoop σ i fuel td s cnt).2.1 ≤ 0 ∧
      (supplyLoop σ i fuel td s cnt).1.length ≤ td.toNat ∧
      ∀ p ∈ (supplyLoop σ i fuel td s cnt).1, 1 ≤ p.quantity := by
  intro fuel
  induction fuel with
  | zero =>
    intro td s cnt h
    refine ⟨by simp [supplyLoop, supplyTotal], by simp [supplyLoop]; omega,
      by simp [supplyLoop], by simp [supplyLoop]⟩
  | succ fuel ih =>
    intro td s cnt h
    by_cases htd : 0 < td
    · have hq1 : 1 ≤ uniformInt 1 100 (σ (s + 1)) := uniformInt_lower 1 100 _
      have hrec := ih (td - (uniformInt 1 100 (σ (s + 1)) : ℤ)) (s + 2) (cnt + 1) (by omega)
      obtain ⟨hsum, hfin, hlen, hqs⟩ := hrec
      simp only [supplyLoop, if_pos htd]
      refine ⟨?_, hfin, ?_, ?_⟩
      · simp only [supplyTotal, List.map_cons, List.sum_cons] at hsum ⊢
        omega
      · simp only [List.length_cons]
        omega
      · intro p hp
        rcases List.mem_cons.1 hp with h | h
        · subst h; exact hq1
        · exact hqs p h
    · refine ⟨by simp [supplyLoop, if_neg htd, supplyTotal], ?_,
        by simp [supplyLoop, if_neg htd], by simp [supplyLoop, if_neg htd]⟩
      simp only [supplyLoop, if_neg htd]
      omega

lemma supplyLoop_ids (σ : RStream) (i : ℕ) :
    ∀ fuel td s cnt,
      (supplyLoop σ i fuel td s cnt).1.map (fun p => p.identifier)
        = List.range' (cnt + 1) (supplyLoop σ i fuel td s cnt).1.length ∧
      (supplyLoop σ i fuel td s cnt).2.2.2 = cnt + (supplyLoop σ i fuel td s cnt).1.length := by
  intro fuel
  induction fuel with
  | zero => intro td s cnt; simp [supplyLoop]
  | succ fuel ih =>
    intro td s cnt
    by_cases htd : 0 < td
    · have hrec := ih (td - (uniformInt 1 100 (σ (s + 1)) : ℤ)) (s + 2) (cnt + 1)
      simp only [supplyLoop, if_pos htd, List.map_cons, List.length_cons]
      rw [List.range'_succ]
      exact ⟨by rw [hrec.1], by omega⟩
    · simp [supplyLoop, if_neg htd]

lemma durations_getD_mem {n : ℕ} (h : n < 8) : durations.getD n 0 ∈ durations := by
  interval_cases n <;> decide

lemma mkStage_ok {σ : RStream} (hσ : validS σ) (R s i k : ℕ) :
    stageOk R (mkStage σ R s i k).1 := by
  intro i' k' hname
  by_cases hc : k = 1 ∧ R ≠ 0
  · have hop : (mkStage σ R s i k).1.op
        = { name := .oper i k, optype := .timePer, duration := none,
            durationPer := some 86400, sizemultiple := 1 } := by
      by_cases hch : chance (σ (s + 1)) = true <;> simp [mkStage, if_pos hc, hch]
    have hld : (mkStage σ R s i k).1.load
        = some { op := OpName.oper i k, res := choiceIdx R (σ s) } := by
      by_cases hch : chance (σ (s + 1)) = true <;> simp [mkStage, if_pos hc, hch]
    rw [hop] at hname
    obtain ⟨rfl, rfl⟩ : i = i' ∧ k = k' := by simpa using hname
    refine ⟨fun _ => ⟨by rw [hop], by rw [hop], by rw [hop],
        { op := OpName.oper i k, res := choiceIdx R (σ s) }, by rw [hld], rfl,
        choiceIdx_lt (Nat.pos_of_ne_zero hc.2) (hσ s)⟩,
      fun hn => absurd hc hn⟩
  · have hop : (mkStage σ R s i k).1.op
        = { name := .oper i k, optype := .plain,
            duration := some (durations.getD (choiceIdx 8 (σ s)) 0),
            durationPer := none, sizemultiple := 1 } := by
      by_cases hch : chance (σ (s + 1)) = true <;> simp [mkStage, if_neg hc, hch]
    have hld : (mkStage σ R s i k).1.load = none := by
      by_cases hch : chance (σ (s + 1)) = true <;> simp [mkStage, if_neg hc, hch]
    rw [hop] at hname
    obtain ⟨rfl, rfl⟩ : i = i' ∧ k = k' := by simpa using hname
    refine ⟨fun hk => absurd hk hc, fun _ => ⟨hld, by rw [hop], by rw [hop],
        durations.getD (choiceIdx 8 (σ s)) 0, by rw [hop],
        durations_getD_mem (choiceIdx_lt (by norm_num) (hσ s))⟩⟩

lemma mkStages_mem {σ : RStream} (hσ : validS σ) (R i : ℕ) :
    ∀ n s k, ∀ st ∈ (mkStages σ R i s k n).1, stageOk R st := by
  intro n
  induction n with
  | zero => intro s k st h; simp [mkStages] at h
  | succ n ih =>
    intro s k st h
    simp only [mkStages, List.mem_cons] at h
    rcases h with h | h
    · subst h; exact mkStage_ok hσ R s i k
    · exact ih _ _ st h

lemma mkStages_length (σ : RStream) (R i : ℕ) :
    ∀ n s k, (mkStages σ R i s k n).1.length = n := by
  intro n
  induction n with
  | zero => intro s k; simp [mkStages]
  | succ n ih => intro s k; simp [mkStages, ih]

lemma mkCluster_eq (σ : RStream) (d lvl R s cnt i : ℕ) :
    (mkCluster σ d lvl R s cnt i).1.demands = (mkDemands σ i (s + 1) 0 d).1 ∧
    (mkCluster σ d lvl R s cnt i).1.stages
      = (mkStages σ R i (mkDemands σ i (s + 1) 0 d).2 0 lvl).1 ∧
    (mkCluster σ d lvl R s cnt i).1.opplans
      = (supplyLoop σ i (demandTotal (mkDemands σ i (s + 1) 0 d).1).toNat
          (demandTotal (mkDemands σ i (s + 1) 0 d).1)
          (mkStages σ R i (mkDemands σ i (s + 1) 0 d).2 0 lvl).2 cnt).1 ∧
    (mkCluster σ d lvl R s cnt i).1.finalTd
      = (supplyLoop σ i (demandTotal (mkDemands σ i (s + 1) 0 d).1).toNat
          (demandTotal (mkDemands σ i (s + 1) 0 d).1)
          (mkStages σ R i (mkDemands σ i (s + 1) 0 d).2 0 lvl).2 cnt).2.1 ∧
    (mkCluster σ d lvl R s cnt i).2.2
      = (supplyLoop σ i (demandTotal (mkDemands σ i (s + 1) 0 d).1).toNat
          (demandTotal (mkDemands σ i (s + 1) 0 d).1)
          (mkStages σ R i (mkDemands σ i (s + 1) 0 d).2 0 lvl).2 cnt).2.2.2 ∧
    (mkCluster σ d lvl R s cnt i).1.idx = i :=
  ⟨rfl, rfl, rfl, rfl, rfl, rfl⟩

lemma mkCluster_supply (σ : RStream) (d lvl R s cnt i : ℕ) :
    demandTotal (mkCluster σ d lvl R s cnt i).1.demands
        ≤ supplyTotal (mkCluster σ d lvl R s cnt i).1.opplans ∧
    (mkCluster σ d lvl R s cnt i).1.finalTd ≤ 0 ∧
    (mkCluster σ d lvl R s cnt i).1.opplans.length
        ≤ (demandTotal (mkCluster σ d lvl R s cnt i).1.demands).toNat ∧
    ∀ p ∈ (mkCluster σ d lvl R s cnt i).1.opplans, 1 ≤ p.quantity := by
  obtain ⟨hd, -, hop, hfin, -, -⟩ := mkCluster_eq σ d lvl R s cnt i
  rw [hd, hop, hfin]
  obtain ⟨hsum, hf, hlen, hq⟩ := supplyLoop_spec σ i
    (demandTotal (mkDemands σ i (s + 1) 0 d).1).toNat
    (demandTotal (mkDemands σ i (s + 1) 0 d).1)
    (mkStages σ R i (mkDemands σ i (s + 1) 0 d).2 0 lvl).2 cnt (le_refl _)
  exact ⟨by omega, hf, hlen, hq⟩

lemma mkCluster_ids (σ : RStream) (d lvl R s cnt i : ℕ) :
    (mkCluster σ d lvl R s cnt i).1.opplans.map (fun p => p.identifier)
      = List.range' (cnt + 1) (mkCluster σ d lvl R s cnt i).1.opplans.length ∧
    (mkCluster σ d lvl R s cnt i).2.2
      = cnt + (mkCluster σ d lvl R s cnt i).1.opplans.length := by
  obtain ⟨-, -, hop, -, hcnt, -⟩ := mkCluster_eq σ d lvl R s cnt i
  rw [hop, hcnt]
  exact supplyLoop_ids σ i _ _ _ cnt

lemma mkCluster_ops_length (σ : RStream) (d lvl R s cnt i : ℕ) :
    (mkCluster σ d lvl R s cnt i).1.operations.length = lvl + 2 := by
  obtain ⟨-, hst, -, -, -, -⟩ := mkCluster_eq σ d lvl R s cnt i
  simp [ClusterOut.operations, hst, mkStages_length]

lemma runClusters_mem (σ : RStream) (d lvl R : ℕ) :
    ∀ n s cnt i, ∀ cl ∈ (runClusters σ d lvl R s cnt i n).1,
      ∃ s' cnt' i', cl = (mkCluster σ d lvl R s' cnt' i').1 := by
  intro n
  induction n with
  | zero => intro s cnt i cl h; simp [runClusters] at h
  | succ n ih =>
    intro s cnt i cl h
    simp only [runClusters, List.mem_cons] at h
    rcases h with h | h
    · exact ⟨s, cnt, i, h⟩
    · exact ih _ _ _ cl h

lemma runClusters_ids (σ : RStream) (d lvl R : ℕ) :
    ∀ n s cnt i,
      (((runClusters σ d lvl R s cnt i n).1.map fun c => c.opplans).flatten.map
          fun p => p.identifier)
        = List.range' (cnt + 1)
            ((runClusters σ d lvl R s cnt i n).1.map fun c => c.opplans).flatten.length ∧
      (runClusters σ d lvl R s cnt i n).2.2
        = cnt + ((runClusters σ d lvl R s cnt i n).1.map fun c => c.opplans).flatten.length := by
  intro n
  induction n with
  | zero => intro s cnt i; simp [runClusters]
  | succ n ih =>
    intro s cnt i
    obtain ⟨hids, hcnt⟩ := mkCluster_ids σ d lvl R s cnt i
    obtain ⟨hids2, hcnt2⟩ :=
      ih (mkCluster σ d lvl R s cnt i).2.1 (mkCluster σ d lvl R s cnt i).2.2 (i + 1)
    simp only [runClusters, List.map_cons, List.flatten_cons, List.map_append,
      List.length_append]
    constructor
    · rw [hids, hids2, hcnt,
        show cnt + (mkCluster σ d lvl R s cnt i).1.opplans.length + 1
          = (cnt + 1) + (mkCluster σ d lvl R s cnt i).1.opplans.length from by omega,
        List.range'_append_1]
      exact congrArg (List.range' (cnt + 1)) (Nat.add_comm _ _)
    · omega

lemma runClusters_ops (σ : RStream) (d lvl R : ℕ) :
    ∀ n s cnt i,
      ((runClusters σ d lvl R s cnt i n).1.map fun c => c.operations).flatten.length
        = n * (lvl + 2) := by
  intro n
  induction n with
  | zero => intro s cnt i; simp [runClusters]
  | succ n ih =>
    intro s cnt i
    simp only [runClusters, List.map_cons, List.flatten_cons, List.length_append]
    rw [mkCluster_ops_length, ih]
    ring

lemma create_model_clusters (rng0 : RStream × ℕ) (plans0 : List PlanRow)
    (cluster demand lvl resource : ℕ) (utilization : ℚ) :
    (create_model rng0 plans0 cluster demand lvl resource utilization).clusters
      = (runClusters seedStream demand lvl resource 0 100000 0 cluster).1 := rfl

/-- C1: for every cluster generated by `create_model`, the total quantity
of the `OperationPlan` rows created for the cluster's supply operation is
at least the total quantity of the cluster's `Demand` rows: the supply
loop `while total_demand > 0` keeps adding supply orders until the
accumulated demand is covered. -/
theorem C1_cluster_supply_covers_demand (rng0 : RStream × ℕ) (plans0 : List PlanRow)
    (cluster demand lvl resource : ℕ) (utilization : ℚ) :
    ∀ cl ∈ (create_model rng0 plans0 cluster demand lvl resource utilization).clusters,
      demandTotal cl.demands ≤ supplyTotal cl.opplans := by
  intro cl hcl
  rw [create_model_clusters] at hcl
  obtain ⟨s, cnt, i, rfl⟩ :=
    runClusters_mem seedStream demand lvl resource cluster 0 100000 0 cl hcl
  exact (mkCluster_supply seedStream demand lvl resource s cnt i).1

/-- Witness for C1 at cluster=1, demand=1, level=0, resource=1, utilization=1. -/
theorem C1_witness : demandTotal cl1.demands ≤ supplyTotal cl1.opplans :=
  C1_cluster_supply_covers_demand (fun _ => 0, 0) [] 1 1 0 1 1 cl1 (by decide)

/-- C2: `create_model` is deterministic.  The run's only stateful input
besides its parameters and the pre-existing `Plan` rows is the state of
the global pseudo-random generator, and `random.seed(100)` at the start
of the run discards that state, so two runs with the same parameters
produce exactly the same generated rows. -/
theorem C2_run_deterministic (rng0 rng1 : RStream × ℕ) (plans0 : List PlanRow)
    (cluster demand lvl resource : ℕ) (utilization : ℚ) :
    create_model rng0 plans0 cluster demand lvl resource utilization
      = create_model rng1 plans0 cluster demand lvl resource utilization := rfl

/-- C3: every capacity `Bucket` row is created with value
`int(float(cluster*demand*550)/(resource*365*utilization)) + 1`
(the definition of `capacity`), and for cluster=2, demand=3, resource=1,
utilization=1.0 that value is `int(3300/365) + 1 = 10`. -/
theorem C3_bucket_capacity :
    (∀ (rng0 : RStream × ℕ) (plans0 : List PlanRow)
        (cluster demand lvl resource : ℕ) (utilization : ℚ),
      ∀ b ∈ (create_model rng0 plans0 cluster demand lvl resource utilization).buckets,
        b = capacity cluster demand resource utilization) ∧
    capacity 2 3 1 1 = 10 := by
  constructor
  · intro rng0 plans0 cluster demand lvl resource utilization b hb
    have h : (create_model rng0 plans0 cluster demand lvl resource utilization).buckets
        = List.replicate resource (capacity cluster demand resource utilization) := rfl
    rw [h] at hb
    exact List.eq_of_mem_replicate hb
  · have h9 : ⌊(3300 : ℚ) / 365⌋ = 9 := by
      rw [Int.floor_eq_iff]
      norm_num
    have h2 : capacity 2 3 1 1 = pyInt (3300 / 365) + 1 := by
      unfold capacity
      norm_num
    rw [h2]
    unfold pyInt
    rw [if_neg (by norm_num : ¬((3300 : ℚ) / 365 < 0)), h9]
    norm_num

/-- Witness for C3 at cluster=2, demand=3, level=1, resource=1, utilization=1. -/
theorem C3_witness : bucket3 = capacity 2 3 1 1 :=
  C3_bucket_capacity.1 (fun _ => 0, 0) [] 2 3 1 1 1 bucket3 (by
    have h : (create_model (fun _ => 0, 0) [] 2 3 1 1 1).buckets
        = List.replicate 1 (capacity 2 3 1 1) := rfl
    have hb : bucket3 = capacity 2 3 1 1 := by
      unfold bucket3
      rw [h]
      rfl
    rw [hb, h]
    exact List.mem_replicate.2 ⟨one_ne_zero, rfl⟩)

/-- C4: `createDates` creates exactly 365 rows whose day fields are the
365 consecutive days at offsets 0..364 from the epoch 2007-01-01 (a
contiguous range, no gaps, no duplicates), and each row's quarter number
is `(month-1)/3 + 1`, which lies in 1..4 since the month lies in 1..12. -/
theorem C4_dates_calendar :
    createDates.length = 365 ∧
    createDates.map (fun r => r.day) = List.range 365 ∧
    (createDates.map fun r => r.day).Nodup ∧
    ∀ r ∈ createDates, (1 ≤ r.month ∧ r.month ≤ 12) ∧
      r.quarter = (r.month - 1) / 3 + 1 ∧ 1 ≤ r.quarter ∧ r.quarter ≤ 4 := by
  have hmap : createDates.map (fun r => r.day) = List.range 365 := by
    simp only [createDates, List.map_map]
    exact List.map_id' _
  refine ⟨?_, hmap, hmap ▸ List.nodup_range 365, ?_⟩
  · have h := congrArg List.length hmap
    simpa using h
  · intro r hr
    simp only [createDates, List.mem_map] at hr
    obtain ⟨i, hi, rfl⟩ := hr
    have hcp : monthCum.countP (fun c => decide (c ≤ i)) ≤ 11 :=
      List.countP_le_length _
    have hm : 1 ≤ monthOf i ∧ monthOf i ≤ 12 := by unfold monthOf; omega
    obtain ⟨hm1, hm2⟩ := hm
    refine ⟨⟨hm1, hm2⟩, rfl, ?_, ?_⟩
    · show 1 ≤ (monthOf i - 1) / 3 + 1
      omega
    · show (monthOf i - 1) / 3 + 1 ≤ 4
      omega

/-- C5 counterexample: in the run with cluster=1, demand=0, level=4,
resource=1, utilization=1 the stage operation `Oper 0 L03` exists — index
3 is on the every-2nd-level pattern — but carries no resource load
(only `Oper 0 L01` does), refuting the claim that every 2nd level gets a
load: the code tests `k == 1` only. -/
theorem C5_claim_false :
    stageAt (create_model (fun _ => 0, 0) [] 1 0 4 1 1) 0 3 = true ∧
    stageLoadAt (create_model (fun _ => 0, 0) [] 1 0 4 1 1) 0 1 = true ∧
    stageLoadAt (create_model (fun _ => 0, 0) [] 1 0 4 1 1) 0 3 = false := by
  decide

/-- C5 (amended): in every cluster, exactly the stage with index `k = 1`
(and only when at least one resource exists) is created as an
`OPERATION_TIME_PER` operation with `duration_per=86400` and a `Load` on
one of the created resources; every other stage operation gets a duration
from the fixed `durations` list and no load. -/
theorem C5_only_second_stage_loaded (rng0 : RStream × ℕ) (plans0 : List PlanRow)
    (cluster demand lvl resource : ℕ) (utilization : ℚ) :
    ∀ cl ∈ (create_model rng0 plans0 cluster demand lvl resource utilization).clusters,
      ∀ st ∈ cl.stages, stageOk resource st := by
  intro cl hcl st hst
  rw [create_model_clusters] at hcl
  obtain ⟨s, cnt, i, rfl⟩ :=
    runClusters_mem seedStream demand lvl resource cluster 0 100000 0 cl hcl
  obtain ⟨-, hstages, -, -, -, -⟩ := mkCluster_eq seedStream demand lvl resource s cnt i
  rw [hstages] at hst
  exact mkStages_mem validS_seedStream resource i lvl _ 0 st hst

/-- Witness for C5 at cluster=1, demand=0, level=2, resource=1,
utilization=1: stage 1 of the single cluster is loaded. -/
theorem C5_witness :
    st5.op.optype = OpType.timePer ∧ st5.op.durationPer = some 86400 ∧
    st5.op.duration = none ∧
    ∃ ld, st5.load = some ld ∧ ld.op = OpName.oper 0 1 ∧ ld.res < 1 :=
  (C5_only_second_stage_loaded (fun _ => 0, 0) [] 1 0 2 1 1 cl5 (by decide)
    st5 (by decide) 0 1 (by decide)).1 (by decide)

/-- C6 counterexample: starting from a `Plan` table that already holds
two rows, the plan step of `create_model` updates the first row and keeps
the second, so afterwards two `Plan` rows exist, not exactly one. -/
theorem C6_claim_false :
    ((create_model (fun _ => 0, 0) [{ current := 3 }, { current := 4 }] 1 1 1 1 1).plans).length
      ≠ 1 := by
  decide

/-- C6 (amended): after the plan step at least one `Plan` row exists and
the first row's current date is the epoch start; the remaining rows are
untouched, so the table holds exactly one row precisely when at most one
row existed before (in particular exactly one when it was empty). -/
theorem C6_plan_step (rng0 : RStream × ℕ) (plans0 : List PlanRow)
    (cluster demand lvl resource : ℕ) (utilization : ℚ) :
    (create_model rng0 plans0 cluster demand lvl resource utilization).plans ≠ [] ∧
    (create_model rng0 plans0 cluster demand lvl resource utilization).plans.head?
      = some { current := 0 } ∧
    (create_model rng0 plans0 cluster demand lvl resource utilization).plans.tail
      = plans0.tail ∧
    (create_model rng0 plans0 cluster demand lvl resource utilization).plans.length
      = max plans0.length 1 := by
  have h : (create_model rng0 plans0 cluster demand lvl resource utilization).plans
      = planStep plans0 := rfl
  rw [h]
  cases plans0 with
  | nil => refine ⟨by simp [planStep], by simp [planStep], by simp [planStep], ?_⟩
           simp [planStep]
  | cons p rest =>
    refine ⟨by simp [planStep], by simp [planStep], by simp [planStep], ?_⟩
    simp only [planStep, List.length_cons]
    omega

/-- C7: every `Demand` row generated by `create_model` has a quantity in
1..10, a priority in 1..3, a due date within the one-year window starting
at the epoch (day-offset in `[0, 365)`), a customer among the 100 created
customers and a category from the fixed 7-element category list. -/
theorem C7_demand_fields (rng0 : RStream × ℕ) (plans0 : List PlanRow)
    (cluster demand lvl resource : ℕ) (utilization : ℚ) :
    ∀ cl ∈ (create_model rng0 plans0 cluster demand lvl resource utilization).clusters,
      ∀ dm ∈ cl.demands,
        1 ≤ dm.quantity ∧ dm.quantity ≤ 10 ∧
        1 ≤ dm.priority ∧ dm.priority ≤ 3 ∧
        (0 : ℚ) ≤ getDateOffset dm.dueK ∧ getDateOffset dm.dueK < 365 ∧
        dm.customer < numCustomers ∧ dm.category < numCategories := by
  intro cl hcl dm hdm
  rw [create_model_clusters] at hcl
  obtain ⟨s, cnt, i, rfl⟩ :=
    runClusters_mem seedStream demand lvl resource cluster 0 100000 0 cl hcl
  obtain ⟨hdem, -, -, -, -, -⟩ := mkCluster_eq seedStream demand lvl resource s cnt i
  rw [hdem] at hdm
  obtain ⟨h1, h2, h3, h4, h5, h6, h7⟩ :=
    mkDemands_mem validS_seedStream i demand (s + 1) 0 dm hdm
  have hD : (0 : ℚ) < (D : ℚ) := by exact_mod_cast D_pos
  refine ⟨h1, h2, h3, h4, ?_, ?_, h5, h6⟩
  · unfold getDateOffset
    positivity
  · unfold getDateOffset
    rw [div_lt_iff₀ hD]
    have hk : (dm.dueK : ℚ) < (D : ℚ) := by exact_mod_cast h7
    calc 365 * (dm.dueK : ℚ) < 365 * (D : ℚ) := by
          exact mul_lt_mul_of_pos_left hk (by norm_num)
      _ = 365 * (D : ℚ) := rfl

/-- Witness for C7 at cluster=1, demand=1, level=0, resource=2,
utilization=1. -/
theorem C7_witness :
    1 ≤ dm7.quantity ∧ dm7.quantity ≤ 10 ∧
    1 ≤ dm7.priority ∧ dm7.priority ≤ 3 ∧
    (0 : ℚ) ≤ getDateOffset dm7.dueK ∧ getDateOffset dm7.dueK < 365 ∧
    dm7.customer < numCustomers ∧ dm7.category < numCategories :=
  C7_demand_fields (fun _ => 0, 0) [] 1 1 0 2 1 cl7 (by decide) dm7 (by decide)

/-- C8: a full run of `create_model` creates exactly `cluster*(level+2)`
`Operation` rows: per cluster one delivery operation, `level` chain
operations and one supply operation. -/
theorem C8_operation_count (rng0 : RStream × ℕ) (plans0 : List PlanRow)
    (cluster demand lvl resource : ℕ) (utilization : ℚ) :
    (runOperations (create_model rng0 plans0 cluster demand lvl resource utilization)).length
      = cluster * (lvl + 2) := by
  have h : runOperations (create_model rng0 plans0 cluster demand lvl resource utilization)
      = ((runClusters seedStream demand lvl resource 0 100000 0 cluster).1.map
          fun c => c.operations).flatten := rfl
  rw [h, runClusters_ops]

/-- C9: the supply loop of every cluster terminates: every generated
`OperationPlan` quantity `int(random.uniform(1,100))` is at least 1, so
`total_demand` strictly decreases each iteration; the loop exits with
`total_demand ≤ 0` after at most (initial total demand) iterations. -/
theorem C9_supply_loop_terminates (rng0 : RStream × ℕ) (plans0 : List PlanRow)
    (cluster demand lvl resource : ℕ) (utilization : ℚ) :
    ∀ cl ∈ (create_model rng0 plans0 cluster demand lvl resource utilization).clusters,
      (∀ p ∈ cl.opplans, 1 ≤ p.quantity) ∧ cl.finalTd ≤ 0 ∧
      cl.opplans.length ≤ (demandTotal cl.demands).toNat := by
  intro cl hcl
  rw [create_model_clusters] at hcl
  obtain ⟨s, cnt, i, rfl⟩ :=
    runClusters_mem seedStream demand lvl resource cluster 0 100000 0 cl hcl
  obtain ⟨-, hfin, hlen, hq⟩ := mkCluster_supply seedStream demand lvl resource s cnt i
  exact ⟨hq, hfin, hlen⟩

/-- Witness for C9 at cluster=1, demand=2, level=0, resource=1,
utilization=1. -/
theorem C9_witness :
    (∀ p ∈ cl9.opplans, 1 ≤ p.quantity) ∧ cl9.finalTd ≤ 0 ∧
    cl9.opplans.length ≤ (demandTotal cl9.demands).toNat :=
  C9_supply_loop_terminates (fun _ => 0, 0) [] 1 2 0 1 1 cl9 (by decide)

/-- C10: across a whole run the `OperationPlan` identifiers are exactly
the consecutive integers 100001, 100002, ... (the counter starts at
100000 and is incremented before each row), hence strictly increasing
and all distinct, also across clusters. -/
theorem C10_opplan_identifiers (rng0 : RStream × ℕ) (plans0 : List PlanRow)
    (cluster demand lvl resource : ℕ) (utilization : ℚ) :
    (runOpplans (create_model rng0 plans0 cluster demand lvl resource utilization)).map
        (fun p => p.identifier)
      = List.range' 100001
          (runOpplans (create_model rng0 plans0 cluster demand lvl resource utilization)).length ∧
    ((runOpplans (create_model rng0 plans0 cluster demand lvl resource utilization)).map
        fun p => p.identifier).Nodup := by
  have h : runOpplans (create_model rng0 plans0 cluster demand lvl resource utilization)
      = ((runClusters seedStream demand lvl resource 0 100000 0 cluster).1.map
          fun c => c.opplans).flatten := rfl
  rw [h]
  obtain ⟨hids, -⟩ := runClusters_ids seedStream demand lvl resource cluster 0 100000 0
  constructor
  · exact hids
  · rw [hids]
    exact List.nodup_range' _ _

end Frepple
